import Mathlib

/-!
Verification development for the guest query-limit and authentication-gating
subsystem of the nyaya frontend.

The embedding follows the TypeScript/JavaScript source:
* `useQueryLimit` (hooks/useQueryLimit.ts): an in-memory React state
  `queryCount` plus one localStorage entry under a fixed key.  A mount
  effect initialises the count from storage; a persist effect with
  dependency `[queryCount]` writes `queryCount.toString()` back to storage
  whenever the in-memory count changes (React skips the effect when a
  state update leaves the value unchanged, by `Object.is` comparison).
* `QueryLimitContext.tsx`: an effect with dependency `[isAuthenticated]`
  that calls `resetCount()` when the session becomes authenticated.
* `chat/page.tsx`: `handleChatSubmit` gates submission on
  `isAuthenticated`/`canMakeQuery`; the `useChat` `onFinish` callback
  increments the guest count once per completed exchange.
* `authProvider.tsx`: the axios request interceptor, `refreshAccessToken`,
  `logout`, `login` and `checkAuthStatus`.

Machine integers are modelled as `Int` (JS numbers used here are integers
throughout: counts, HTTP statuses, JWT `exp` claims in whole seconds).
-/

namespace QueryLimit

/-- `const QUERY_LIMIT = 20` in hooks/useQueryLimit.ts. -/
def QUERY_LIMIT : Int := 20

/-- `const STORAGE_KEY = 'nyayantar_query_count'`. The storage is modelled
as the single `Option String` value held under this key. -/
def STORAGE_KEY : String := "nyayantar_query_count"

/-- State of the `useQueryLimit` hook: the in-memory React state
`queryCount` and the localStorage entry under `STORAGE_KEY`
(`none` = key absent). -/
structure State where
  queryCount : Int
  stored : Option String
  deriving DecidableEq, Repr

/-- Model of JavaScript `parseInt(s, 10)`: skip leading whitespace, read an
optional sign, then the longest digit prefix (trailing garbage ignored);
`none` models `NaN` (no digits found). -/
def jsParseInt (s : String) : Option Int :=
  let cs := s.toList.dropWhile Char.isWhitespace
  let signAndRest : Int × List Char :=
    match cs with
    | '-' :: r => (-1, r)
    | '+' :: r => (1, r)
    | _ => (1, cs)
  let ds := signAndRest.2.takeWhile Char.isDigit
  if ds.isEmpty then none
  else some (signAndRest.1 * (ds.foldl (fun acc c => acc * 10 + (c.toNat - 48)) 0 : Nat))

/-- The mount initialisation effect of `useQueryLimit`:
`if (stored) { const count = parseInt(stored, 10);
 if (!isNaN(count) && count >= 0) setQueryCount(count) }`.
An absent entry, an empty string (falsy in JS), an unparsable string, or a
negative parse leave the count at its initial 0. -/
def initCount (entry : Option String) : Int :=
  match entry with
  | none => 0
  | some s =>
    if s = "" then 0
    else
      match jsParseInt s with
      | none => 0
      | some c => if 0 ≤ c then c else 0

/-- State after mounting the hook over storage contents `entry`: the init
effect yields `initCount entry`, and the persist effect then writes that
count back to storage (it runs at least once on mount, and again after the
init effect when the loaded count differs from 0). -/
def mountState (entry : Option String) : State :=
  { queryCount := initCount entry, stored := some (toString (initCount entry)) }

/-- `incrementCount`: `setQueryCount(prev => prev + 1)`; the count always
changes, so the persist effect fires and writes the new count. -/
def incrementCount (s : State) : State :=
  { queryCount := s.queryCount + 1, stored := some (toString (s.queryCount + 1)) }

/-- `resetCount`: `setQueryCount(0)` then `localStorage.removeItem(...)`.
The removal runs synchronously; afterwards the persist effect fires with
the new count 0 — but only when the count actually changed (React skips
the re-render, hence the effect, when the state is `Object.is`-equal), so
resetting from a nonzero count re-writes the entry as "0" while resetting
from 0 leaves the entry removed. -/
def resetCount (s : State) : State :=
  if s.queryCount = 0 then { queryCount := 0, stored := none }
  else { queryCount := 0, stored := some (toString (0 : Int)) }

/-- `const remainingQueries = Math.max(0, QUERY_LIMIT - queryCount)`. -/
def remainingQueries (queryCount : Int) : Int :=
  max 0 (QUERY_LIMIT - queryCount)

/-- `const hasExceededLimit = queryCount >= QUERY_LIMIT`. -/
def hasExceededLimit (queryCount : Int) : Bool :=
  QUERY_LIMIT ≤ queryCount

/-- `const canMakeQuery = queryCount < QUERY_LIMIT`. -/
def canMakeQuery (queryCount : Int) : Bool :=
  queryCount < QUERY_LIMIT

end QueryLimit

namespace ChatSubmit

open QueryLimit

/-- Observable outcome of one submit event in `handleChatSubmit`
(chat/page.tsx): either the event is forwarded to the `useChat`
`handleSubmit` (the streaming chat transport), or `setShowSignupDialog(true)`
is called and the `SignupPromptDialog` is rendered with
`queryCount={queryLimitContext.queryCount}`. -/
inductive SubmitOutcome where
  | forwardToChat
  | showSignup (queryCount : Int)
  deriving DecidableEq, Repr

/-- `handleChatSubmit` (chat/page.tsx):
`if (!isAuthenticated && !queryLimitContext.canMakeQuery)
 { setShowSignupDialog(true); return; } handleSubmit(e)`. -/
def handleChatSubmit (isAuthenticated : Bool) (s : State) : SubmitOutcome :=
  if !isAuthenticated && !(canMakeQuery s.queryCount) then
    SubmitOutcome.showSignup s.queryCount
  else
    SubmitOutcome.forwardToChat

/-- Events delivered while a forwarded chat exchange runs: streamed text
chunks, the `onFinish` callback at stream completion, or the `onError`
callback on a failed exchange. -/
inductive ChatEvent where
  | chunk
  | finish
  | error
  deriving DecidableEq, Repr

/-- Effect of one chat event on the query-limit state. Streamed chunks only
append message text; `onFinish` runs
`if (!isAuthenticated) queryLimitContext.incrementCount()`; `onError` shows
a toast (or redirects on "Not authenticated") and never touches the count. -/
def processEvent (isAuthenticated : Bool) (s : State) : ChatEvent → State
  | ChatEvent.chunk => s
  | ChatEvent.finish => if isAuthenticated then s else incrementCount s
  | ChatEvent.error => s

/-- Run a whole exchange's event sequence over the query-limit state. -/
def runExchange (isAuthenticated : Bool) (events : List ChatEvent) (s : State) : State :=
  events.foldl (processEvent isAuthenticated) s

/-- A successfully completed exchange: some number of streamed chunks
followed by exactly one `onFinish`. -/
def completedExchange (k : Nat) : List ChatEvent :=
  List.replicate k ChatEvent.chunk ++ [ChatEvent.finish]

/-- A failed exchange: some number of streamed chunks followed by
`onError` (and no `onFinish`). -/
def failedExchange (k : Nat) : List ChatEvent :=
  List.replicate k ChatEvent.chunk ++ [ChatEvent.error]

/-- The `QueryLimitProvider` effect (QueryLimitContext.tsx), run once each
time its dependency `isAuthenticated` changes:
`if (isAuthenticated) queryLimit.resetCount()`. -/
def queryLimitAuthEffect (isAuthenticated : Bool) (s : State) : State :=
  if isAuthenticated then resetCount s else s

end ChatSubmit

namespace Auth

/-- Decoded JWT payload as used by the interceptor: only the `exp` claim
(seconds since epoch) is inspected; it may be absent from the payload. -/
structure JwtPayload where
  exp : Option Int
  deriving DecidableEq, Repr

/-- An access token string together with its `jwtDecode` result, which is a
pure function of the string: `decoded = none` models a malformed token on
which `jwtDecode` throws. -/
structure Jwt where
  raw : String
  decoded : Option JwtPayload
  deriving DecidableEq, Repr

/-- In-memory session state of `AuthProvider` (authProvider.tsx). -/
structure Session where
  isAuthenticated : Bool
  email : Option String
  firstName : Option String
  lastName : Option String
  role : Option String
  isAdmin : Bool
  accessToken : Option Jwt
  refreshToken : Option String
  deriving DecidableEq, Repr

/-- The five cookies managed by the provider (each set with a 7-day
expiry); the access-token cookie keeps the token's decode behaviour
alongside its raw string since `jwtDecode` is deterministic. -/
structure CookieJar where
  accessToken : Option Jwt
  refreshToken : Option String
  email : Option String
  firstName : Option String
  lastName : Option String
  deriving DecidableEq, Repr

/-- Combined provider state: in-memory session plus cookie store. -/
structure AuthState where
  session : Session
  cookies : CookieJar
  deriving DecidableEq, Repr

/-- The initial (all-cleared) session: every field null/false. -/
def emptySession : Session :=
  { isAuthenticated := false, email := none, firstName := none, lastName := none,
    role := none, isAdmin := false, accessToken := none, refreshToken := none }

/-- An empty cookie jar. -/
def emptyCookies : CookieJar :=
  { accessToken := none, refreshToken := none, email := none,
    firstName := none, lastName := none }

/-- `logout`: removes all five cookies, resets every piece of session
state, and navigates to `/signin` (navigation is a side effect outside the
modelled state). Idempotent by construction. -/
def logout (_st : AuthState) : AuthState :=
  { session := emptySession, cookies := emptyCookies }

/-- Outcome of the `POST /api/auth/refresh` exchange, as observed by
`refreshAccessToken`: a new token pair, or an axios error whose
`error.response?.status` is `status` (`none` = no HTTP response). -/
inductive RefreshResult where
  | success (access : Jwt) (refresh : String)
  | failure (status : Option Nat)
  deriving DecidableEq, Repr

/-- `refreshAccessToken` (authProvider.tsx). Returns the new access token
(or `none`), the updated provider state, and the number of refresh
exchanges actually attempted against the server (0 when no refresh token
is available, else 1). On success both tokens are stored in memory and as
cookies; on a 401/403 failure the provider logs out; other failures leave
the state unchanged. -/
def refreshAccessToken (resp : RefreshResult) (st : AuthState) :
    Option Jwt × AuthState × Nat :=
  match st.session.refreshToken with
  | none => (none, st, 0)
  | some _ =>
    match resp with
    | RefreshResult.success a r =>
      (some a,
       { session := { st.session with accessToken := some a, refreshToken := some r },
         cookies := { st.cookies with accessToken := some a, refreshToken := some r } },
       1)
    | RefreshResult.failure status =>
      if status = some 401 ∨ status = some 403 then (none, logout st, 1)
      else (none, st, 1)

/-- JS condition `decodedToken.exp && decodedToken.exp < currentTime`:
a missing `exp` — or the falsy value 0 — counts as not expired. -/
def expExpired (p : JwtPayload) (now : Int) : Bool :=
  match p.exp with
  | none => false
  | some e => decide (e ≠ 0) && decide (e < now)

/-- Result of the request interceptor: the request proceeds (with the
`Authorization` header value it carries, if any) or is cancelled with an
`axios.Cancel` message. -/
inductive InterceptResult where
  | proceed (authHeader : Option String)
  | abort (message : String)
  deriving DecidableEq, Repr

/-- `Authorization` header value attached for a raw token string. -/
def bearer (raw : String) : String := "Bearer " ++ raw

/-- The axios request interceptor installed in `AuthProvider`
(authProvider.tsx).  `now` is `Date.now() / 1000`; `resp` is the server's
answer to a refresh exchange should one be attempted.  Control flow of the
source: with no token the config passes through untouched; a decode
failure is caught and leads directly to logout plus cancellation; an
expired token triggers one refresh — on success the new token is attached,
on failure the provider logs out and throws a cancel, which the
surrounding catch block catches, logging out (again) and throwing the
final cancel message; an unexpired token is attached unmodified.  The
returned `Nat` counts refresh exchanges attempted. -/
def requestInterceptor (now : Int) (resp : RefreshResult) (st : AuthState) :
    InterceptResult × AuthState × Nat :=
  match st.session.accessToken with
  | none => (InterceptResult.proceed none, st, 0)
  | some tok =>
    match tok.decoded with
    | none =>
      (InterceptResult.abort "Invalid token. Please log in again.", logout st, 0)
    | some payload =>
      if expExpired payload now then
        match refreshAccessToken resp st with
        | (some newTok, st1, n) =>
          (InterceptResult.proceed (some (bearer newTok.raw)), st1, n)
        | (none, st1, n) =>
          (InterceptResult.abort "Invalid token. Please log in again.",
           logout (logout st1), n)
      else
        (InterceptResult.proceed (some (bearer tok.raw)), st, 0)

/-- Outcome of a `GET /api/auth/me` role fetch: a response whose
`data.role` may be missing, or an axios error with
`error.response?.status = status` (`none` = no HTTP response). -/
inductive FetchResult where
  | ok (role : Option String)
  | fetchError (status : Option Nat)
  deriving DecidableEq, Repr

/-- `response.data.role || 'user'`: a missing or empty (falsy) role string
falls back to `"user"`. -/
def roleOrDefault (r : Option String) : String :=
  match r with
  | none => "user"
  | some s => if s = "" then "user" else s

/-- `setRole(userRole); setIsAdmin(userRole === 'admin')`. -/
def applyRole (r : Option String) (st : AuthState) : AuthState :=
  let role := roleOrDefault r
  { st with session := { st.session with role := some role, isAdmin := role = "admin" } }

/-- `setRole('user'); setIsAdmin(false)` — the fail-open default branch. -/
def setDefaultRole (st : AuthState) : AuthState :=
  { st with session := { st.session with role := some "user", isAdmin := false } }

/-- Role resolution of `login` (authProvider.tsx, after tokens and profile
are stored): apply the fetched role; on a 401/403 error refresh once and
retry — a failing retry clears authentication, a failed refresh falls back
to the default role; on any other error fall back to the default role. -/
def loginRoleResolution (st : AuthState) (first : FetchResult)
    (refreshResp : RefreshResult) (retry : FetchResult) : AuthState :=
  match first with
  | FetchResult.ok r => applyRole r st
  | FetchResult.fetchError status =>
    if status = some 401 ∨ status = some 403 then
      match refreshAccessToken refreshResp st with
      | (some _, st1, _) =>
        match retry with
        | FetchResult.ok r => applyRole r st1
        | FetchResult.fetchError _ => logout st1
      | (none, st1, _) => setDefaultRole st1
    else setDefaultRole st

/-- Role resolution of `checkAuthStatus` (startup hydration): identical to
the login variant except that a failed refresh triggers a logout instead
of the default role. -/
def startupRoleResolution (st : AuthState) (first : FetchResult)
    (refreshResp : RefreshResult) (retry : FetchResult) : AuthState :=
  match first with
  | FetchResult.ok r => applyRole r st
  | FetchResult.fetchError status =>
    if status = some 401 ∨ status = some 403 then
      match refreshAccessToken refreshResp st with
      | (some _, st1, _) =>
        match retry with
        | FetchResult.ok r => applyRole r st1
        | FetchResult.fetchError _ => logout st1
      | (none, st1, _) => logout st1
    else setDefaultRole st

/-- `login(accessToken, refreshToken, email, firstName, lastName)`: set
the five cookies, populate the in-memory session (role untouched until the
asynchronous fetch lands), then resolve the role. The final
`router.push('/chat')` is a navigation side effect outside the modelled
state. -/
def login (st : AuthState) (access : Jwt) (refresh email first last : String)
    (roleFetch : FetchResult) (refreshResp : RefreshResult)
    (retryFetch : FetchResult) : AuthState :=
  let st1 : AuthState :=
    { session :=
        { isAuthenticated := true, email := some email, firstName := some first,
          lastName := some last, role := st.session.role, isAdmin := st.session.isAdmin,
          accessToken := some access, refreshToken := some refresh },
      cookies :=
        { accessToken := some access, refreshToken := some refresh,
          email := some email, firstName := some first, lastName := some last } }
  loginRoleResolution st1 roleFetch refreshResp retryFetch

/-- `checkAuthStatus` (the startup effect): when the access-token,
refresh-token and email cookies are all present, hydrate the session as
authenticated and resolve the role; otherwise mark the session
unauthenticated (redirecting off protected routes as a side effect). -/
def checkAuthStatus (cookies : CookieJar) (roleFetch : FetchResult)
    (refreshResp : RefreshResult) (retryFetch : FetchResult) : AuthState :=
  match cookies.accessToken, cookies.refreshToken, cookies.email with
  | some acc, some rt, some em =>
    let st1 : AuthState :=
      { session :=
          { isAuthenticated := true, email := some em,
            firstName := cookies.firstName, lastName := cookies.lastName,
            role := none, isAdmin := false,
            accessToken := some acc, refreshToken := some rt },
        cookies := cookies }
    startupRoleResolution st1 roleFetch refreshResp retryFetch
  | _, _, _ =>
    { session := emptySession, cookies := cookies }

/-- Fixture: an access token whose `exp` claim (100 s after epoch) is in
the past for any realistic `now`. -/
def expiredJwt : Jwt := { raw := "expired-token", decoded := some { exp := some 100 } }

/-- Fixture: an access token whose `exp` claim lies far in the future. -/
def freshJwt : Jwt := { raw := "fresh-token", decoded := some { exp := some 4102444800 } }

/-- Fixture: a malformed access token on which `jwtDecode` throws. -/
def malformedJwt : Jwt := { raw := "not-a-jwt", decoded := none }

/-- Fixture: the token pair returned by a successful refresh exchange. -/
def renewedJwt : Jwt := { raw := "renewed-token", decoded := some { exp := some 4102444800 } }

/-- Fixture: an access token whose `exp` claim is exactly 0 (the epoch) —
an expiry in the past for any positive `now`, but a falsy value in the
JS check `decodedToken.exp && decodedToken.exp < currentTime`. -/
def epochJwt : Jwt := { raw := "epoch-token", decoded := some { exp := some 0 } }

/-- Fixture: a populated authenticated provider state holding the given
access token and the refresh token "refresh-1". -/
def sampleState (tok : Option Jwt) : AuthState :=
  { session :=
      { isAuthenticated := true, email := some "user@example.com",
        firstName := some "Asha", lastName := some "Rao", role := some "user",
        isAdmin := false, accessToken := tok, refreshToken := some "refresh-1" },
    cookies :=
      { accessToken := tok, refreshToken := some "refresh-1",
        email := some "user@example.com", firstName := some "Asha",
        lastName := some "Rao" } }

end Auth

/-- C2: starting from a fresh counter (no stored entry), `n` increments
yield `queryCount = n`, `remainingQueries = max(0, 20 − n)`,
`hasExceededLimit = (n ≥ 20)`, `canMakeQuery = (n < 20)`, and the limit
constant is 20. -/
theorem increments_derive_query_limit_state (n : Nat) :
    (QueryLimit.incrementCount^[n] (QueryLimit.mountState none)).queryCount = n ∧
    QueryLimit.remainingQueries
        ((QueryLimit.incrementCount^[n] (QueryLimit.mountState none)).queryCount)
      = max 0 (20 - (n : Int)) ∧
    QueryLimit.hasExceededLimit
        ((QueryLimit.incrementCount^[n] (QueryLimit.mountState none)).queryCount)
      = decide (20 ≤ (n : Int)) ∧
    QueryLimit.canMakeQuery
        ((QueryLimit.incrementCount^[n] (QueryLimit.mountState none)).queryCount)
      = decide ((n : Int) < 20) ∧
    QueryLimit.QUERY_LIMIT = 20 := by
  have hcount : ∀ m : Nat,
      (QueryLimit.incrementCount^[m] (QueryLimit.mountState none)).queryCount = m := by
    intro m
    induction m with
    | zero => rfl
    | succ k ih =>
      rw [Function.iterate_succ_apply']
      simp [QueryLimit.incrementCount, ih]
  refine ⟨hcount n, ?_, ?_, ?_, rfl⟩
  · rw [hcount n]
    simp [QueryLimit.remainingQueries, QueryLimit.QUERY_LIMIT]
  · rw [hcount n]
    simp [QueryLimit.hasExceededLimit, QueryLimit.QUERY_LIMIT]
  · rw [hcount n]
    simp [QueryLimit.canMakeQuery, QueryLimit.QUERY_LIMIT]

/-- C1: on a submit event with the session unauthenticated and
`canMakeQuery` false (`queryCount ≥ 20`), `handleChatSubmit` raises the
signup-prompt signal carrying the current `queryCount` and never invokes
the chat transport. -/
theorem guest_over_limit_never_reaches_transport
    (s : QueryLimit.State) (h : 20 ≤ s.queryCount) :
    ChatSubmit.handleChatSubmit false s = ChatSubmit.SubmitOutcome.showSignup s.queryCount ∧
    ChatSubmit.handleChatSubmit false s ≠ ChatSubmit.SubmitOutcome.forwardToChat := by
  have hc : QueryLimit.canMakeQuery s.queryCount = false := by
    simp only [QueryLimit.canMakeQuery, QueryLimit.QUERY_LIMIT, decide_eq_false_iff_not, not_lt]
    omega
  refine ⟨?_, ?_⟩ <;> simp [ChatSubmit.handleChatSubmit, hc]

theorem guest_over_limit_never_reaches_transport_witness :
    ChatSubmit.handleChatSubmit false ⟨20, some "20"⟩ =
      ChatSubmit.SubmitOutcome.showSignup 20 ∧
    ChatSubmit.handleChatSubmit false ⟨20, some "20"⟩ ≠
      ChatSubmit.SubmitOutcome.forwardToChat :=
  guest_over_limit_never_reaches_transport ⟨20, some "20"⟩ (by decide)

/-- C4 counterexample: calling `resetCount` from count 5 leaves the
persistent store with the entry "0" (the persist effect re-writes it after
the removal), so the store does not end with "no entry under the counter
key". -/
theorem reset_from_nonzero_leaves_store_entry :
    (QueryLimit.resetCount ⟨5, some "5"⟩).stored = some "0" ∧
    (QueryLimit.resetCount ⟨5, some "5"⟩).stored ≠ none := by
  refine ⟨?_, ?_⟩ <;> decide

/-- C4 (amended): after `resetCount` every subsequent read yields
`queryCount = 0` and `canMakeQuery = true`; the persistent entry is removed
when the count was already 0, but is re-persisted as "0" (by the
write-through effect) when resetting from a nonzero count. -/
theorem reset_zeroes_count_and_store (s : QueryLimit.State) :
    (QueryLimit.resetCount s).queryCount = 0 ∧
    QueryLimit.canMakeQuery (QueryLimit.resetCount s).queryCount = true ∧
    (QueryLimit.resetCount s).stored = (if s.queryCount = 0 then none else some "0") := by
  unfold QueryLimit.resetCount
  by_cases h : s.queryCount = 0
  · simp [h, QueryLimit.canMakeQuery, QueryLimit.QUERY_LIMIT]
  · simp [h, QueryLimit.canMakeQuery, QueryLimit.QUERY_LIMIT]
    rfl

/-- C5: a completed guest exchange increments the count exactly once,
independently of how many chunks were streamed; failed exchanges and
authenticated exchanges leave the count unchanged; a guest completing an
exchange at `queryCount = 19` reaches 20 with `canMakeQuery = false`. -/
theorem guest_completed_exchange_increments_once
    (k : Nat) (s : QueryLimit.State) (h : s.queryCount = 19) :
    (∀ (j : Nat) (t : QueryLimit.State),
        ChatSubmit.runExchange false (ChatSubmit.completedExchange j) t =
          QueryLimit.incrementCount t) ∧
    (∀ (j : Nat) (t : QueryLimit.State),
        ChatSubmit.runExchange false (ChatSubmit.failedExchange j) t = t) ∧
    (∀ (evs : List ChatSubmit.ChatEvent) (t : QueryLimit.State),
        ChatSubmit.runExchange true evs t = t) ∧
    (ChatSubmit.runExchange false (ChatSubmit.completedExchange k) s).queryCount = 20 ∧
    QueryLimit.canMakeQuery
        (ChatSubmit.runExchange false (ChatSubmit.completedExchange k) s).queryCount
      = false := by
  have hchunks : ∀ (b : Bool) (j : Nat) (l : List ChatSubmit.ChatEvent)
      (t : QueryLimit.State),
      ChatSubmit.runExchange b (List.replicate j ChatSubmit.ChatEvent.chunk ++ l) t =
        ChatSubmit.runExchange b l t := by
    intro b j
    induction j with
    | zero => intro l t; rfl
    | succ i ih =>
      intro l t
      simpa [List.replicate_succ, ChatSubmit.runExchange,
        ChatSubmit.processEvent] using ih l t
  have hdone : ∀ (j : Nat) (t : QueryLimit.State),
      ChatSubmit.runExchange false (ChatSubmit.completedExchange j) t =
        QueryLimit.incrementCount t := by
    intro j t
    rw [ChatSubmit.completedExchange, hchunks]
    simp [ChatSubmit.runExchange, ChatSubmit.processEvent]
  have hfail : ∀ (j : Nat) (t : QueryLimit.State),
      ChatSubmit.runExchange false (ChatSubmit.failedExchange j) t = t := by
    intro j t
    rw [ChatSubmit.failedExchange, hchunks]
    simp [ChatSubmit.runExchange, ChatSubmit.processEvent]
  have hauth : ∀ (evs : List ChatSubmit.ChatEvent) (t : QueryLimit.State),
      ChatSubmit.runExchange true evs t = t := by
    intro evs
    induction evs with
    | nil => intro t; rfl
    | cons e rest ih =>
      intro t
      have hstep : ChatSubmit.processEvent true t e = t := by
        cases e <;> simp [ChatSubmit.processEvent]
      simpa [ChatSubmit.runExchange, hstep] using ih t
  refine ⟨hdone, hfail, hauth, ?_, ?_⟩ <;>
    simp [hdone, QueryLimit.incrementCount, h, QueryLimit.canMakeQuery,
      QueryLimit.QUERY_LIMIT]

theorem guest_completed_exchange_increments_once_witness :
    (ChatSubmit.runExchange false (ChatSubmit.completedExchange 3)
        ⟨19, some "19"⟩).queryCount = 20 ∧
    QueryLimit.canMakeQuery
        (ChatSubmit.runExchange false (ChatSubmit.completedExchange 3)
          ⟨19, some "19"⟩).queryCount = false :=
  ⟨(guest_completed_exchange_increments_once 3 ⟨19, some "19"⟩ rfl).2.2.2.1,
   (guest_completed_exchange_increments_once 3 ⟨19, some "19"⟩ rfl).2.2.2.2⟩

/-- C6 counterexample: calling `resetCount` twice from count 15 does not
leave the state identical to calling it once — the first call leaves the
store entry "0" (re-written by the persist effect) while the second call
removes the entry and (the count being unchanged at 0) nothing re-writes
it. -/
theorem reset_twice_differs_from_reset_once :
    QueryLimit.resetCount (QueryLimit.resetCount ⟨15, some "15"⟩) ≠
      QueryLimit.resetCount ⟨15, some "15"⟩ := by
  decide

/-- C6 (amended): the `QueryLimitProvider` effect applies `resetCount`
exactly once on the transition to authenticated and nothing otherwise; the
reset zeroes the count (from any prior count, e.g. 15) with
`canMakeQuery = true`; invoking `resetCount` again is idempotent on the
in-memory count (still 0), though not on the store entry; and no chat
event ever resets the count — each one either leaves the state unchanged
or increments it. -/
theorem auth_transition_resets_count (s t : QueryLimit.State) :
    ChatSubmit.queryLimitAuthEffect true s = QueryLimit.resetCount s ∧
    ChatSubmit.queryLimitAuthEffect false s = s ∧
    (QueryLimit.resetCount s).queryCount = 0 ∧
    QueryLimit.canMakeQuery (QueryLimit.resetCount s).queryCount = true ∧
    (QueryLimit.resetCount (QueryLimit.resetCount s)).queryCount = 0 ∧
    (∀ (b : Bool) (e : ChatSubmit.ChatEvent),
        ChatSubmit.processEvent b t e = t ∨
        ChatSubmit.processEvent b t e = QueryLimit.incrementCount t) := by
  have hreset : ∀ u : QueryLimit.State, (QueryLimit.resetCount u).queryCount = 0 := by
    intro u
    unfold QueryLimit.resetCount
    split <;> rfl
  refine ⟨rfl, rfl, hreset s, ?_, hreset _, ?_⟩
  · rw [hreset s]
    decide
  · intro b e
    cases e with
    | chunk => exact Or.inl rfl
    | finish =>
      cases b with
      | false => exact Or.inr rfl
      | true => exact Or.inl rfl
    | error => exact Or.inl rfl

/-- C10: initialization maps an absent, non-numeric, or negative stored
entry to 0 (a negative value is treated as absence), the initialized count
is never negative, and both `incrementCount` and `resetCount` preserve
non-negativity of the count. -/
theorem query_count_nonneg_invariant :
    QueryLimit.initCount none = 0 ∧
    (∀ str : String, QueryLimit.jsParseInt str = none →
        QueryLimit.initCount (some str) = 0) ∧
    (∀ (str : String) (c : Int), QueryLimit.jsParseInt str = some c → c < 0 →
        QueryLimit.initCount (some str) = 0) ∧
    (∀ entry : Option String, 0 ≤ QueryLimit.initCount entry) ∧
    (∀ s : QueryLimit.State,
        0 ≤ s.queryCount → 0 ≤ (QueryLimit.incrementCount s).queryCount) ∧
    (∀ s : QueryLimit.State, 0 ≤ (QueryLimit.resetCount s).queryCount) := by
  refine ⟨rfl, ?_, ?_, ?_, ?_, ?_⟩
  · intro str hp
    by_cases h : str = "" <;> simp [QueryLimit.initCount, h, hp]
  · intro str c hp hc
    have hnot : ¬ (0 ≤ c) := by omega
    by_cases h : str = "" <;> simp [QueryLimit.initCount, h, hp, hnot]
  · intro entry
    rcases entry with _ | s
    · simp [QueryLimit.initCount]
    · simp only [QueryLimit.initCount]
      split
      · omega
      · split
        · omega
        · split <;> omega
  · intro s hs
    simp only [QueryLimit.incrementCount]
    omega
  · intro s
    unfold QueryLimit.resetCount
    split <;> simp

theorem query_count_nonneg_invariant_witness :
    QueryLimit.initCount (some "abc") = 0 ∧
    QueryLimit.initCount (some "-5") = 0 ∧
    0 ≤ (QueryLimit.incrementCount ⟨3, some "3"⟩).queryCount :=
  ⟨query_count_nonneg_invariant.2.1 "abc" (by decide),
   query_count_nonneg_invariant.2.2.1 "-5" (-5) (by decide) (by decide),
   query_count_nonneg_invariant.2.2.2.2.1 ⟨3, some "3"⟩ (by decide)⟩

/-- C3 (amended): for a request whose access token carries a *nonzero*
`exp` claim in the past (with a refresh token available, as in every
reachable authenticated state), exactly one refresh exchange is attempted
before the request goes out; when the refresh succeeds the request
proceeds with the new token, and when it fails the request is cancelled
and the provider state is a full logout (unauthenticated, all cookies
cleared).  The nonzero restriction is forced by the source: the falsy
check `decodedToken.exp && decodedToken.exp < currentTime` treats a token
with `exp = 0` — also an expiry in the past — as unexpired, attaching the
stale token with zero refreshes (see the counterexample below). -/
theorem expired_token_single_refresh
    (st : Auth.AuthState) (tok : Auth.Jwt) (p : Auth.JwtPayload)
    (e now : Int) (rt : String) (resp : Auth.RefreshResult)
    (hak : st.session.accessToken = some tok)
    (hdec : tok.decoded = some p)
    (hexp : p.exp = some e)
    (hne : e ≠ 0)
    (hpast : e < now)
    (hrt : st.session.refreshToken = some rt) :
    (Auth.requestInterceptor now resp st).2.2 = 1 ∧
    (∀ (a : Auth.Jwt) (r : String), resp = Auth.RefreshResult.success a r →
        (Auth.requestInterceptor now resp st).1 =
          Auth.InterceptResult.proceed (some (Auth.bearer a.raw))) ∧
    (∀ status : Option Nat, resp = Auth.RefreshResult.failure status →
        (Auth.requestInterceptor now resp st).1 =
          Auth.InterceptResult.abort "Invalid token. Please log in again." ∧
        (Auth.requestInterceptor now resp st).2.1 =
          { session := Auth.emptySession, cookies := Auth.emptyCookies } ∧
        (Auth.requestInterceptor now resp st).2.1.session.isAuthenticated = false) := by
  have hx : Auth.expExpired p now = true := by
    simp [Auth.expExpired, hexp, hne, hpast]
  cases resp with
  | success a r =>
    refine ⟨?_, ?_, ?_⟩
    · simp [Auth.requestInterceptor, hak, hdec, hx, Auth.refreshAccessToken, hrt]
    · intro a2 r2 hs
      injection hs with ha hr
      subst ha hr
      simp [Auth.requestInterceptor, hak, hdec, hx, Auth.refreshAccessToken, hrt]
    · intro status hs
      exact absurd hs (by simp)
  | failure status =>
    by_cases hc : status = some 401 ∨ status = some 403
    · refine ⟨?_, ?_, ?_⟩
      · simp [Auth.requestInterceptor, hak, hdec, hx, Auth.refreshAccessToken, hrt, hc]
      · intro a r hs
        exact absurd hs (by simp)
      · intro status2 hs
        injection hs with hst
        subst hst
        refine ⟨?_, ?_, ?_⟩ <;>
          simp [Auth.requestInterceptor, hak, hdec, hx, Auth.refreshAccessToken,
            hrt, hc, Auth.logout, Auth.emptySession]
    · refine ⟨?_, ?_, ?_⟩
      · simp [Auth.requestInterceptor, hak, hdec, hx, Auth.refreshAccessToken, hrt, hc]
      · intro a r hs
        exact absurd hs (by simp)
      · intro status2 hs
        injection hs with hst
        subst hst
        refine ⟨?_, ?_, ?_⟩ <;>
          simp [Auth.requestInterceptor, hak, hdec, hx, Auth.refreshAccessToken,
            hrt, hc, Auth.logout, Auth.emptySession]

theorem expired_token_single_refresh_witness :
    (Auth.requestInterceptor 1000 (Auth.RefreshResult.failure (some 500))
        (Auth.sampleState (some Auth.expiredJwt))).2.2 = 1 ∧
    (Auth.requestInterceptor 1000 (Auth.RefreshResult.failure (some 500))
        (Auth.sampleState (some Auth.expiredJwt))).1 =
      Auth.InterceptResult.abort "Invalid token. Please log in again." ∧
    (Auth.requestInterceptor 1000 (Auth.RefreshResult.failure (some 500))
        (Auth.sampleState (some Auth.expiredJwt))).2.1.session.isAuthenticated = false :=
  ⟨(expired_token_single_refresh (Auth.sampleState (some Auth.expiredJwt))
      Auth.expiredJwt { exp := some 100 } 100 1000 "refresh-1"
      (Auth.RefreshResult.failure (some 500)) rfl rfl rfl (by decide) (by decide) rfl).1,
   ((expired_token_single_refresh (Auth.sampleState (some Auth.expiredJwt))
      Auth.expiredJwt { exp := some 100 } 100 1000 "refresh-1"
      (Auth.RefreshResult.failure (some 500)) rfl rfl rfl (by decide) (by decide)
      rfl).2.2 (some 500) rfl).1,
   ((expired_token_single_refresh (Auth.sampleState (some Auth.expiredJwt))
      Auth.expiredJwt { exp := some 100 } 100 1000 "refresh-1"
      (Auth.RefreshResult.failure (some 500)) rfl rfl rfl (by decide) (by decide)
      rfl).2.2 (some 500) rfl).2.2⟩

/-- C3 counterexample: a token whose `exp` claim is 0 has its expiry in
the past at `now = 1000`, yet the interceptor attempts zero refresh
exchanges and sends the request with the stale token attached, leaving
the session authenticated — even though the claim requires one refresh
attempt, and (the supplied refresh exchange failing) that the request
never be sent. -/
theorem epoch_expired_token_sent_without_refresh :
    (0 : Int) < 1000 ∧
    (Auth.requestInterceptor 1000 (Auth.RefreshResult.failure (some 500))
        (Auth.sampleState (some Auth.epochJwt))).2.2 = 0 ∧
    (Auth.requestInterceptor 1000 (Auth.RefreshResult.failure (some 500))
        (Auth.sampleState (some Auth.epochJwt))).1 =
      Auth.InterceptResult.proceed (some (Auth.bearer Auth.epochJwt.raw)) ∧
    (Auth.requestInterceptor 1000 (Auth.RefreshResult.failure (some 500))
        (Auth.sampleState (some Auth.epochJwt))).2.1.session.isAuthenticated
      = true := by
  refine ⟨by decide, rfl, rfl, rfl⟩

/-- C7: a request whose access token is present with an `exp` claim in the
future proceeds with that token attached unmodified as the bearer header
and zero refresh exchanges; a request with no access token at all passes
through completely unmodified with no header and zero refreshes. -/
theorem unexpired_token_attached_unmodified
    (st : Auth.AuthState) (now : Int) (resp : Auth.RefreshResult) :
    (st.session.accessToken = none →
        Auth.requestInterceptor now resp st =
          (Auth.InterceptResult.proceed none, st, 0)) ∧
    (∀ (tok : Auth.Jwt) (p : Auth.JwtPayload) (e : Int),
        st.session.accessToken = some tok → tok.decoded = some p →
        p.exp = some e → now < e →
        Auth.requestInterceptor now resp st =
          (Auth.InterceptResult.proceed (some (Auth.bearer tok.raw)), st, 0)) := by
  constructor
  · intro h
    simp [Auth.requestInterceptor, h]
  · intro tok p e hak hdec hexp hfut
    have hx : Auth.expExpired p now = false := by
      have : ¬ (e < now) := by omega
      simp [Auth.expExpired, hexp, this]
    simp [Auth.requestInterceptor, hak, hdec, hx]

theorem unexpired_token_attached_unmodified_witness :
    Auth.requestInterceptor 1000 (Auth.RefreshResult.failure (some 500))
        (Auth.sampleState (some Auth.freshJwt)) =
      (Auth.InterceptResult.proceed (some (Auth.bearer Auth.freshJwt.raw)),
       Auth.sampleState (some Auth.freshJwt), 0) ∧
    Auth.requestInterceptor 1000 (Auth.RefreshResult.failure (some 500))
        (Auth.sampleState none) =
      (Auth.InterceptResult.proceed none, Auth.sampleState none, 0) :=
  ⟨(unexpired_token_attached_unmodified (Auth.sampleState (some Auth.freshJwt)) 1000
      (Auth.RefreshResult.failure (some 500))).2 Auth.freshJwt
      { exp := some 4102444800 } 4102444800 rfl rfl rfl (by decide),
   (unexpired_token_attached_unmodified (Auth.sampleState none) 1000
      (Auth.RefreshResult.failure (some 500))).1 rfl⟩

/-- C8 counterexample: with a malformed access token, a refresh token
available, and a refresh exchange that would succeed, the interceptor
still attempts zero refreshes and aborts the request with a logout — it
does not behave like the expired-token case. -/
theorem malformed_token_refutes_refresh_first :
    (Auth.requestInterceptor 1000
        (Auth.RefreshResult.success Auth.renewedJwt "refresh-2")
        (Auth.sampleState (some Auth.malformedJwt))).2.2 = 0 ∧
    (Auth.requestInterceptor 1000
        (Auth.RefreshResult.success Auth.renewedJwt "refresh-2")
        (Auth.sampleState (some Auth.malformedJwt))).1 =
      Auth.InterceptResult.abort "Invalid token. Please log in again." ∧
    (Auth.requestInterceptor 1000
        (Auth.RefreshResult.success Auth.renewedJwt "refresh-2")
        (Auth.sampleState (some Auth.malformedJwt))).2.1.session.isAuthenticated
      = false := by
  refine ⟨rfl, rfl, rfl⟩

/-- C8 (amended): a request whose access token fails to decode is aborted
immediately — the provider logs out and cancels the request without
attempting any refresh exchange. -/
theorem malformed_token_immediate_logout
    (st : Auth.AuthState) (tok : Auth.Jwt) (now : Int) (resp : Auth.RefreshResult)
    (hak : st.session.accessToken = some tok)
    (hdec : tok.decoded = none) :
    Auth.requestInterceptor now resp st =
      (Auth.InterceptResult.abort "Invalid token. Please log in again.",
       Auth.logout st, 0) := by
  simp [Auth.requestInterceptor, hak, hdec]

theorem malformed_token_immediate_logout_witness :
    Auth.requestInterceptor 1000
        (Auth.RefreshResult.success Auth.renewedJwt "refresh-2")
        (Auth.sampleState (some Auth.malformedJwt)) =
      (Auth.InterceptResult.abort "Invalid token. Please log in again.",
       Auth.logout (Auth.sampleState (some Auth.malformedJwt)), 0) :=
  malformed_token_immediate_logout (Auth.sampleState (some Auth.malformedJwt))
    Auth.malformedJwt 1000 (Auth.RefreshResult.success Auth.renewedJwt "refresh-2")
    rfl rfl

/-- C9: when the asynchronous role fetch after `login` or after startup
hydration (`checkAuthStatus`) fails with any error other than 401/403, the
role defaults to "user", `isAdmin` becomes false, and the session stays
authenticated — no logout, no hard failure. -/
theorem role_fetch_fail_open
    (st : Auth.AuthState) (access : Auth.Jwt)
    (refresh email first last : String)
    (cookies : Auth.CookieJar) (acc : Auth.Jwt) (rt em : String)
    (status : Option Nat) (refreshResp : Auth.RefreshResult)
    (retry : Auth.FetchResult)
    (h401 : status ≠ some 401) (h403 : status ≠ some 403)
    (hc1 : cookies.accessToken = some acc) (hc2 : cookies.refreshToken = some rt)
    (hc3 : cookies.email = some em) :
    ((Auth.login st access refresh email first last
        (Auth.FetchResult.fetchError status) refreshResp retry).session.role
       = some "user" ∧
     (Auth.login st access refresh email first last
        (Auth.FetchResult.fetchError status) refreshResp retry).session.isAdmin
       = false ∧
     (Auth.login st access refresh email first last
        (Auth.FetchResult.fetchError status) refreshResp retry).session.isAuthenticated
       = true) ∧
    ((Auth.checkAuthStatus cookies (Auth.FetchResult.fetchError status)
        refreshResp retry).session.role = some "user" ∧
     (Auth.checkAuthStatus cookies (Auth.FetchResult.fetchError status)
        refreshResp retry).session.isAdmin = false ∧
     (Auth.checkAuthStatus cookies (Auth.FetchResult.fetchError status)
        refreshResp retry).session.isAuthenticated = true) := by
  have hc : ¬ (status = some 401 ∨ status = some 403) := by
    rintro (h | h) <;> [exact h401 h; exact h403 h]
  refine ⟨?_, ?_⟩
  · refine ⟨?_, ?_, ?_⟩ <;>
      simp [Auth.login, Auth.loginRoleResolution, hc, Auth.setDefaultRole]
  · refine ⟨?_, ?_, ?_⟩ <;>
      simp [Auth.checkAuthStatus, hc1, hc2, hc3, Auth.startupRoleResolution, hc,
        Auth.setDefaultRole]

theorem role_fetch_fail_open_witness :
    ((Auth.login (Auth.sampleState none) Auth.freshJwt "refresh-1"
        "user@example.com" "Asha" "Rao" (Auth.FetchResult.fetchError (some 500))
        (Auth.RefreshResult.failure (some 500))
        (Auth.FetchResult.ok (some "user"))).session.role = some "user" ∧
     (Auth.login (Auth.sampleState none) Auth.freshJwt "refresh-1"
        "user@example.com" "Asha" "Rao" (Auth.FetchResult.fetchError (some 500))
        (Auth.RefreshResult.failure (some 500))
        (Auth.FetchResult.ok (some "user"))).session.isAdmin = false ∧
     (Auth.login (Auth.sampleState none) Auth.freshJwt "refresh-1"
        "user@example.com" "Asha" "Rao" (Auth.FetchResult.fetchError (some 500))
        (Auth.RefreshResult.failure (some 500))
        (Auth.FetchResult.ok (some "user"))).session.isAuthenticated = true) ∧
    ((Auth.checkAuthStatus (Auth.sampleState (some Auth.freshJwt)).cookies
        (Auth.FetchResult.fetchError (some 500))
        (Auth.RefreshResult.failure (some 500))
        (Auth.FetchResult.ok (some "user"))).session.role = some "user" ∧
     (Auth.checkAuthStatus (Auth.sampleState (some Auth.freshJwt)).cookies
        (Auth.FetchResult.fetchError (some 500))
        (Auth.RefreshResult.failure (some 500))
        (Auth.FetchResult.ok (some "user"))).session.isAdmin = false ∧
     (Auth.checkAuthStatus (Auth.sampleState (some Auth.freshJwt)).cookies
        (Auth.FetchResult.fetchError (some 500))
        (Auth.RefreshResult.failure (some 500))
        (Auth.FetchResult.ok (some "user"))).session.isAuthenticated = true) :=
  role_fetch_fail_open (Auth.sampleState none) Auth.freshJwt "refresh-1"
    "user@example.com" "Asha" "Rao" (Auth.sampleState (some Auth.freshJwt)).cookies
    Auth.freshJwt "refresh-1" "user@example.com" (some 500)
    (Auth.RefreshResult.failure (some 500)) (Auth.FetchResult.ok (some "user"))
    (by decide) (by decide) rfl rfl rfl
